import Mathlib

/-!
Verification of the BillyBot signup page submit handlers.

Two variants of `handleSubmit` exist in the repository:
* variant B (`src/app/signup/page.tsx`): email, password, mobile, business name;
* variant A (`src/unnamed/part_000`): email, password, business name (no mobile).

Each handler is embedded as a pure function from the form fields and an
environment (the outcomes of the two awaited remote calls) to the list of
observable events it performs, in order: `setError` updates, the
`isSubmitting` flag updates, the two network calls, and router navigation.
-/

namespace BillyBot

/-- JavaScript `\s` / `trim` whitespace: tab, LF, VT, FF, CR, space, NBSP,
Ogham space, the U+2000..U+200A range, LS, PS, NNBSP, MMSP, ideographic
space and the BOM. -/
def jsWhitespace (c : Char) : Bool :=
  c.val = 9 || c.val = 10 || c.val = 11 || c.val = 12 || c.val = 13 ||
  c.val = 32 || c.val = 160 || c.val = 0x1680 ||
  (0x2000 ≤ c.val && c.val ≤ 0x200A) ||
  c.val = 0x2028 || c.val = 0x2029 || c.val = 0x202F || c.val = 0x205F ||
  c.val = 0x3000 || c.val = 0xFEFF

/-- `String.prototype.trim`: drop leading and trailing whitespace. -/
def jsTrim (s : String) : String :=
  ⟨((s.data.dropWhile jsWhitespace).reverse.dropWhile jsWhitespace).reverse⟩

/-- A character removed by `replace(/[\s()-]/g, '')`. -/
def strippedMobileChar (c : Char) : Bool :=
  jsWhitespace c || c = '(' || c = ')' || c = '-'

/-- `trimmedMobile.replace(/[\s()-]/g, '')`. -/
def normalizeMobile (s : String) : String :=
  ⟨s.data.filter (fun c => !strippedMobileChar c)⟩

def isAsciiDigit (c : Char) : Bool := '0' ≤ c && c ≤ '9'

def isNonZeroDigit (c : Char) : Bool := '1' ≤ c && c ≤ '9'

/-- The part of the phone regex after the optional `+`:
`[1-9]\d{7,14}` anchored on both sides. -/
def phoneCore (l : List Char) : Bool :=
  match l with
  | [] => false
  | c :: rest =>
      isNonZeroDigit c && rest.all isAsciiDigit &&
      decide (7 ≤ rest.length) && decide (rest.length ≤ 14)

/-- `phonePattern.test(s)` for `phonePattern = /^\+?[1-9]\d{7,14}$/`.
A leading `+` must be consumed by `\+?` since `[1-9]` cannot match it. -/
def phonePattern (s : String) : Bool :=
  match s.data with
  | '+' :: rest => phoneCore rest
  | l => phoneCore l

/-- The row sent to `supabase.from('clients').upsert(...)`:
`{ id, business_name? }`, with `business_name` an optional key. -/
structure Payload where
  id : String
  business_name : Option String
deriving DecidableEq, Repr

/-- Observable events of one `handleSubmit` execution, in program order. -/
inductive Ev where
  /-- `setError(msg)` -/
  | setErr (msg : String)
  /-- `setIsSubmitting(b)` -/
  | setSubmitting (b : Bool)
  /-- `supabase.auth.signUp(...)`; `mobile` is `options.phone`
  (present in variant B only). -/
  | callSignUp (email password : String) (mobile : Option String)
  /-- `supabase.from('clients').upsert(payload)` -/
  | callUpsert (payload : Payload)
  /-- `router.push(path)` -/
  | navigate (path : String)
deriving DecidableEq, Repr

/-- The outcome of an awaited remote call: a returned value, or a thrown
exception (network failure, unexpected shape). -/
inductive CallResult (α : Type) where
  | ok (value : α)
  | throws
deriving DecidableEq, Repr

/-- What `supabase.auth.signUp` returns when it does not throw:
`data.user` is modelled by its consumed `id` field (`none` when
`user` is `null`), `session` by the truthiness of `data.session`, and
`error` by its `message` (`none` when `error` is `null`). -/
structure SignUpData where
  user : Option String
  session : Bool
  error : Option String
deriving DecidableEq, Repr

/-- What the `upsert` call returns when it does not throw. -/
structure UpsertData where
  error : Option String
deriving DecidableEq, Repr

/-- The environment of one execution: the results of the two remote calls. -/
structure Env where
  signUpResult : CallResult SignUpData
  upsertResult : CallResult UpsertData
deriving DecidableEq, Repr

/-- JavaScript `a || b` on strings: the empty string is falsy. -/
def jsOr (a b : String) : String := if a = "" then b else a

/-- Form fields of variant B (`src/app/signup/page.tsx`). -/
structure Fields where
  email : String
  password : String
  mobile : String
  businessName : String
deriving DecidableEq, Repr

/-- Form fields of variant A (`src/unnamed/part_000`), which has no mobile. -/
structure FieldsA where
  email : String
  password : String
  businessName : String
deriving DecidableEq, Repr

/-- The body of the `try` block shared by both variants, from the
`signUp` call onward. `mobileOpt` is `options.phone` (variant B) or
`none` (variant A). Returns the events of the `try`/`catch` body. -/
def tryBody (trimmedEmail password : String) (mobileOpt : Option String)
    (trimmedBusinessName : String) (env : Env) : List Ev :=
  Ev.callSignUp trimmedEmail password mobileOpt ::
  match env.signUpResult with
  | .throws => [Ev.setErr "Something went wrong. Please try again."]
  | .ok r =>
    match r.error with
    | some m =>
        [Ev.setErr (jsOr m "Unable to create your account. Please try again.")]
    | none =>
      -- `const userId = user?.id; if (!userId) ...` — `userId` is falsy
      -- when `user` is null or `id` is the empty string.
      match r.user with
      | none => [Ev.setErr "Unable to create your account. Please try again."]
      | some userId =>
        if userId = "" then
          [Ev.setErr "Unable to create your account. Please try again."]
        else
          let payload : Payload :=
            { id := userId,
              business_name :=
                if trimmedBusinessName = "" then none
                else some trimmedBusinessName }
          Ev.callUpsert payload ::
          match env.upsertResult with
          | .throws => [Ev.setErr "Something went wrong. Please try again."]
          | .ok u =>
            match u.error with
            | some m =>
                [Ev.setErr (jsOr m
                  "Your account was created, but setup failed. Please try logging in.")]
            | none =>
              if r.session then [Ev.navigate "/account/setup"]
              else [Ev.navigate "/signup/check-email"]

/-- `handleSubmit` of variant B (`src/app/signup/page.tsx`, lines 50–126). -/
def handleSubmitB (f : Fields) (env : Env) : List Ev :=
  let trimmedEmail := jsTrim f.email
  let trimmedMobile := jsTrim f.mobile
  let trimmedBusinessName := jsTrim f.businessName
  Ev.setErr "" ::
  if trimmedEmail = "" then
    [Ev.setErr "Email is required."]
  else if f.password.length < 8 then
    [Ev.setErr "Password must be at least 8 characters."]
  else if trimmedMobile = "" then
    [Ev.setErr "Mobile is required."]
  else
    let normalizedMobile := normalizeMobile trimmedMobile
    if !phonePattern normalizedMobile then
      [Ev.setErr "Please enter a valid mobile number."]
    else
      Ev.setSubmitting true ::
      (tryBody trimmedEmail f.password (some normalizedMobile)
          trimmedBusinessName env
        ++ [Ev.setSubmitting false])

/-- `handleSubmit` of variant A (`src/unnamed/part_000`, lines 18–79). -/
def handleSubmitA (f : FieldsA) (env : Env) : List Ev :=
  let trimmedEmail := jsTrim f.email
  let trimmedBusinessName := jsTrim f.businessName
  Ev.setErr "" ::
  if trimmedEmail = "" then
    [Ev.setErr "Email is required."]
  else if f.password.length < 8 then
    [Ev.setErr "Password must be at least 8 characters."]
  else
    Ev.setSubmitting true ::
    (tryBody trimmedEmail f.password none trimmedBusinessName env
      ++ [Ev.setSubmitting false])

/-! ### Observables over an event trace -/

/-- Whether the `signUp` network call was made. -/
def signUpAttempted (t : List Ev) : Bool :=
  t.any fun e => match e with | .callSignUp .. => true | _ => false

/-- Whether the client-record upsert network call was made. -/
def upsertAttempted (t : List Ev) : Bool :=
  t.any fun e => match e with | .callUpsert _ => true | _ => false

/-- Whether any network call (signUp or upsert) was made. -/
def networkAttempted (t : List Ev) : Bool :=
  t.any fun e =>
    match e with
    | .callSignUp .. => true
    | .callUpsert _ => true
    | _ => false

/-- The payloads passed to upsert calls, in order. -/
def upsertPayloads (t : List Ev) : List Payload :=
  t.filterMap fun e => match e with | .callUpsert p => some p | _ => none

/-- The navigation targets passed to `router.push`, in order. -/
def navTargets (t : List Ev) : List String :=
  t.filterMap fun e => match e with | .navigate p => some p | _ => none

/-- The arguments of every `setError` call, in order. -/
def errMsgs (t : List Ev) : List String :=
  t.filterMap fun e => match e with | .setErr m => some m | _ => none

/-- The rendered error once the handler returns: the error state starts
as `''` and each `setError` overwrites it. -/
def finalError (t : List Ev) : String :=
  (errMsgs t).getLastD ""

/-- The values passed to `setIsSubmitting`, in order. -/
def submittingEvents (t : List Ev) : List Bool :=
  t.filterMap fun e => match e with | .setSubmitting b => some b | _ => none

/-- Checks the `isSubmitting` discipline along a trace whose current flag
value is `s`: every network call and navigation happens while the flag is
true, and the flag is false when the handler returns. -/
def flagDiscipline (t : List Ev) (s : Bool) : Bool :=
  match t with
  | [] => !s
  | .setSubmitting b :: rest => flagDiscipline rest b
  | .callSignUp .. :: rest => s && flagDiscipline rest s
  | .callUpsert _ :: rest => s && flagDiscipline rest s
  | .navigate _ :: rest => s && flagDiscipline rest s
  | .setErr _ :: rest => flagDiscipline rest s

/-- Whether a `CallResult` is a thrown exception. -/
def isThrows {α : Type} : CallResult α → Bool
  | .throws => true
  | .ok _ => false

/-- Whether an exception was actually raised during the execution
described by `t` under `env`: a remote call was made and its result
was a throw. -/
def exceptionOccurred (t : List Ev) (env : Env) : Bool :=
  (signUpAttempted t && isThrows env.signUpResult) ||
  (upsertAttempted t && isThrows env.upsertResult)

/-- The identity-creation call returned (did not throw) with no provider
error and a usable (non-empty) identity id. -/
def signUpUsable (env : Env) : Bool :=
  match env.signUpResult with
  | .ok r =>
      (r.error matches none) &&
      (match r.user with | some uid => uid != "" | none => false)
  | .throws => false

/-- Variant B local validation passes (all four checks). -/
def validB (f : Fields) : Bool :=
  !(jsTrim f.email == "") && !decide (f.password.length < 8) &&
  !(jsTrim f.mobile == "") && phonePattern (normalizeMobile (jsTrim f.mobile))

/-- Variant A local validation passes (both checks). -/
def validA (f : FieldsA) : Bool :=
  !(jsTrim f.email == "") && !decide (f.password.length < 8)

/-! ### Characterization lemmas -/

lemma upsertAttempted_tryBody (te pw : String) (mo : Option String)
    (tb : String) (env : Env) :
    upsertAttempted (tryBody te pw mo tb env) = signUpUsable env := by
  unfold tryBody signUpUsable upsertAttempted
  rcases env with ⟨sr, ur⟩
  rcases sr with ⟨u, s, e⟩ | _
  · rcases e with _ | m
    · rcases u with _ | uid
      · simp
      · by_cases h : uid = ""
        · simp [h]
        · rcases ur with ⟨ue⟩ | _
          · rcases ue with _ | m2 <;> by_cases hs : s = true <;>
              simp [h, hs, List.any_cons]
          · simp [h]
    · simp
  · simp

lemma signUpAttempted_tryBody (te pw : String) (mo : Option String)
    (tb : String) (env : Env) :
    signUpAttempted (tryBody te pw mo tb env) = true := by
  unfold tryBody signUpAttempted
  simp

lemma handleSubmitB_validation_fail (f : Fields) (env : Env)
    (h : validB f = false) :
    (jsTrim f.email = "" ∧
      handleSubmitB f env = [Ev.setErr "", Ev.setErr "Email is required."]) ∨
    (jsTrim f.email ≠ "" ∧ f.password.length < 8 ∧
      handleSubmitB f env =
        [Ev.setErr "", Ev.setErr "Password must be at least 8 characters."]) ∨
    (jsTrim f.email ≠ "" ∧ ¬ f.password.length < 8 ∧ jsTrim f.mobile = "" ∧
      handleSubmitB f env = [Ev.setErr "", Ev.setErr "Mobile is required."]) ∨
    (jsTrim f.email ≠ "" ∧ ¬ f.password.length < 8 ∧ jsTrim f.mobile ≠ "" ∧
      phonePattern (normalizeMobile (jsTrim f.mobile)) = false ∧
      handleSubmitB f env =
        [Ev.setErr "", Ev.setErr "Please enter a valid mobile number."]) := by
  unfold validB at h
  by_cases he : jsTrim f.email = ""
  · exact Or.inl ⟨he, by simp [handleSubmitB, he]⟩
  · by_cases hp : f.password.length < 8
    · exact Or.inr (Or.inl ⟨he, hp, by simp [handleSubmitB, he, hp]⟩)
    · by_cases hm : jsTrim f.mobile = ""
      · exact Or.inr (Or.inr (Or.inl ⟨he, hp, hm, by simp [handleSubmitB, he, hp, hm]⟩))
      · have hpat : phonePattern (normalizeMobile (jsTrim f.mobile)) = false := by
          simpa [he, hp, hm] using h
        exact Or.inr (Or.inr (Or.inr ⟨he, hp, hm, hpat,
          by simp [handleSubmitB, he, hp, hm, hpat]⟩))

lemma handleSubmitB_validation_pass (f : Fields) (env : Env)
    (h : validB f = true) :
    handleSubmitB f env =
      Ev.setErr "" :: Ev.setSubmitting true ::
        (tryBody (jsTrim f.email) f.password
            (some (normalizeMobile (jsTrim f.mobile))) (jsTrim f.businessName) env
          ++ [Ev.setSubmitting false]) := by
  unfold validB at h
  simp only [Bool.and_eq_true, bne_iff_ne, Bool.not_eq_true',
    beq_eq_false_iff_ne, decide_eq_false_iff_not] at h
  obtain ⟨⟨⟨he, hp⟩, hm⟩, hpat⟩ := h
  simp [handleSubmitB, he, hp, hm, hpat]

lemma handleSubmitA_validation_fail (f : FieldsA) (env : Env)
    (h : validA f = false) :
    (jsTrim f.email = "" ∧
      handleSubmitA f env = [Ev.setErr "", Ev.setErr "Email is required."]) ∨
    (jsTrim f.email ≠ "" ∧ f.password.length < 8 ∧
      handleSubmitA f env =
        [Ev.setErr "", Ev.setErr "Password must be at least 8 characters."]) := by
  unfold validA at h
  by_cases he : jsTrim f.email = ""
  · exact Or.inl ⟨he, by simp [handleSubmitA, he]⟩
  · by_cases hp : f.password.length < 8
    · exact Or.inr ⟨he, hp, by simp [handleSubmitA, he, hp]⟩
    · simp [he, hp] at h

lemma handleSubmitA_validation_pass (f : FieldsA) (env : Env)
    (h : validA f = true) :
    handleSubmitA f env =
      Ev.setErr "" :: Ev.setSubmitting true ::
        (tryBody (jsTrim f.email) f.password none (jsTrim f.businessName) env
          ++ [Ev.setSubmitting false]) := by
  unfold validA at h
  simp only [Bool.and_eq_true, bne_iff_ne, Bool.not_eq_true',
    beq_eq_false_iff_ne, decide_eq_false_iff_not] at h
  obtain ⟨he, hp⟩ := h
  simp [handleSubmitA, he, hp]

lemma upsertAttempted_handleSubmitB (f : Fields) (env : Env) :
    upsertAttempted (handleSubmitB f env) = (validB f && signUpUsable env) := by
  by_cases h : validB f = true
  · have ht := upsertAttempted_tryBody (jsTrim f.email) f.password
      (some (normalizeMobile (jsTrim f.mobile))) (jsTrim f.businessName) env
    rw [handleSubmitB_validation_pass f env h, h]
    simp only [upsertAttempted, List.any_cons, List.any_append, List.any_nil] at ht ⊢
    simp [ht]
  · have h' : validB f = false := by simpa using h
    rcases handleSubmitB_validation_fail f env h' with
      ⟨_, he⟩ | ⟨_, _, he⟩ | ⟨_, _, _, he⟩ | ⟨_, _, _, _, he⟩ <;>
      simp [he, h', upsertAttempted]

lemma upsertAttempted_handleSubmitA (f : FieldsA) (env : Env) :
    upsertAttempted (handleSubmitA f env) = (validA f && signUpUsable env) := by
  by_cases h : validA f = true
  · have ht := upsertAttempted_tryBody (jsTrim f.email) f.password none
      (jsTrim f.businessName) env
    rw [handleSubmitA_validation_pass f env h, h]
    simp only [upsertAttempted, List.any_cons, List.any_append, List.any_nil] at ht ⊢
    simp [ht]
  · have h' : validA f = false := by simpa using h
    rcases handleSubmitA_validation_fail f env h' with ⟨_, he⟩ | ⟨_, _, he⟩ <;>
      simp [he, h', upsertAttempted]

lemma signUpAttempted_handleSubmitB (f : Fields) (env : Env) :
    signUpAttempted (handleSubmitB f env) = validB f := by
  by_cases h : validB f = true
  · have ht := signUpAttempted_tryBody (jsTrim f.email) f.password
      (some (normalizeMobile (jsTrim f.mobile))) (jsTrim f.businessName) env
    rw [handleSubmitB_validation_pass f env h, h]
    simp only [signUpAttempted, List.any_cons, List.any_append, List.any_nil] at ht ⊢
    simp [ht]
  · have h' : validB f = false := by simpa using h
    rcases handleSubmitB_validation_fail f env h' with
      ⟨_, he⟩ | ⟨_, _, he⟩ | ⟨_, _, _, he⟩ | ⟨_, _, _, _, he⟩ <;>
      simp [he, h', signUpAttempted]

lemma signUpAttempted_handleSubmitA (f : FieldsA) (env : Env) :
    signUpAttempted (handleSubmitA f env) = validA f := by
  by_cases h : validA f = true
  · have ht := signUpAttempted_tryBody (jsTrim f.email) f.password none
      (jsTrim f.businessName) env
    rw [handleSubmitA_validation_pass f env h, h]
    simp only [signUpAttempted, List.any_cons, List.any_append, List.any_nil] at ht ⊢
    simp [ht]
  · have h' : validA f = false := by simpa using h
    rcases handleSubmitA_validation_fail f env h' with ⟨_, he⟩ | ⟨_, _, he⟩ <;>
      simp [he, h', signUpAttempted]

/-- C1: in both handler variants, the client-record upsert is attempted
if and only if the identity-creation call was made and returned without a
provider error and with a usable (non-empty) identity id; on a provider
error, a thrown call, or a missing/empty id, no upsert call is made. -/
theorem c1_upsert_iff_usable_identity (f : Fields) (fa : FieldsA) (env : Env) :
    upsertAttempted (handleSubmitB f env) =
      (signUpAttempted (handleSubmitB f env) && signUpUsable env) ∧
    upsertAttempted (handleSubmitA fa env) =
      (signUpAttempted (handleSubmitA fa env) && signUpUsable env) := by
  rw [upsertAttempted_handleSubmitB, signUpAttempted_handleSubmitB,
    upsertAttempted_handleSubmitA, signUpAttempted_handleSubmitA]
  exact ⟨rfl, rfl⟩

/-- The phone rule as the spec words it: an optional leading `+`, then
one digit 1–9, then 7 to 14 more digits. Stated declaratively, to be
compared with `phonePattern`, the embedding of the source regex. -/
def phonePatternSpec (s : String) : Prop :=
  ∃ (plus : Bool) (c : Char) (rest : List Char),
    s.data = (if plus then ['+'] else []) ++ c :: rest ∧
    '1' ≤ c ∧ c ≤ '9' ∧ (∀ d ∈ rest, '0' ≤ d ∧ d ≤ '9') ∧
    7 ≤ rest.length ∧ rest.length ≤ 14

lemma phoneCore_iff (l : List Char) :
    phoneCore l = true ↔
      ∃ c rest, l = c :: rest ∧ '1' ≤ c ∧ c ≤ '9' ∧
        (∀ d ∈ rest, '0' ≤ d ∧ d ≤ '9') ∧
        7 ≤ rest.length ∧ rest.length ≤ 14 := by
  cases l with
  | nil => simp [phoneCore]
  | cons c rest =>
    simp only [phoneCore, Bool.and_eq_true, isNonZeroDigit, isAsciiDigit,
      decide_eq_true_eq, List.all_eq_true, List.cons.injEq]
    constructor
    · rintro ⟨⟨⟨⟨h1, h2⟩, h3⟩, h4⟩, h5⟩
      exact ⟨c, rest, ⟨rfl, rfl⟩, h1, h2,
        fun d hd => by simpa using h3 d hd, h4, h5⟩
    · rintro ⟨c', rest', ⟨rfl, rfl⟩, h1, h2, h3, h4, h5⟩
      exact ⟨⟨⟨⟨h1, h2⟩, fun d hd => by simpa using h3 d hd⟩, h4⟩, h5⟩

lemma phonePattern_iff_spec (s : String) :
    phonePattern s = true ↔ phonePatternSpec s := by
  unfold phonePattern phonePatternSpec
  split
  next rest heq =>
    rw [phoneCore_iff]
    constructor
    · rintro ⟨c, rest', hr, h1, h2, h3, h4, h5⟩
      exact ⟨true, c, rest', by simp [heq, hr], h1, h2, h3, h4, h5⟩
    · rintro ⟨plus, c, rest', hr, h1, h2, h3, h4, h5⟩
      cases plus with
      | true =>
        rw [heq] at hr
        simp at hr
        exact ⟨c, rest', hr, h1, h2, h3, h4, h5⟩
      | false =>
        rw [heq] at hr
        simp at hr
        rcases hr with ⟨rfl, rfl⟩
        exact absurd h1 (by decide)
  next l hne =>
    rw [phoneCore_iff]
    constructor
    · rintro ⟨c, rest', hr, h1, h2, h3, h4, h5⟩
      exact ⟨false, c, rest', by simp [hr], h1, h2, h3, h4, h5⟩
    · rintro ⟨plus, c, rest', hr, h1, h2, h3, h4, h5⟩
      cases plus with
      | true => exact absurd hr (hne (c :: rest'))
      | false => exact ⟨c, rest', by simpa using hr, h1, h2, h3, h4, h5⟩

lemma handleSubmitB_mobile_reject (f : Fields) (env : Env)
    (he : jsTrim f.email ≠ "") (hp : ¬ f.password.length < 8)
    (hm : jsTrim f.mobile ≠ "")
    (hpat : phonePattern (normalizeMobile (jsTrim f.mobile)) = false) :
    handleSubmitB f env =
      [Ev.setErr "", Ev.setErr "Please enter a valid mobile number."] := by
  simp [handleSubmitB, he, hp, hm, hpat]

/-- C2: in variant B, once email and password pass, a non-empty trimmed
mobile is normalized by stripping whitespace and `(`, `)`, `-`, and must
match an optional `+`, one digit 1–9, then 7 to 14 more digits
(`phonePattern` is proved equivalent to that reading); otherwise the
submission aborts with exactly "Please enter a valid mobile number." and
no network call is made. "0400 111 222" is rejected, "+61400111222" is
accepted, and the accepted mobile is passed onward in normalized form. -/
theorem c2_mobile_validation :
    (∀ s : String, phonePattern s = true ↔ phonePatternSpec s) ∧
    (∀ (f : Fields) (env : Env),
      jsTrim f.email ≠ "" → ¬ f.password.length < 8 → jsTrim f.mobile ≠ "" →
      ((phonePattern (normalizeMobile (jsTrim f.mobile)) = false →
        handleSubmitB f env =
          [Ev.setErr "", Ev.setErr "Please enter a valid mobile number."] ∧
        networkAttempted (handleSubmitB f env) = false) ∧
      (phonePattern (normalizeMobile (jsTrim f.mobile)) = true →
        Ev.callSignUp (jsTrim f.email) f.password
          (some (normalizeMobile (jsTrim f.mobile))) ∈ handleSubmitB f env))) ∧
    phonePattern (normalizeMobile (jsTrim "0400 111 222")) = false ∧
    phonePattern (normalizeMobile (jsTrim "+61400111222")) = true := by
  refine ⟨phonePattern_iff_spec, ?_, by decide, by decide⟩
  intro f env he hp hm
  constructor
  · intro hpat
    have ht := handleSubmitB_mobile_reject f env he hp hm hpat
    rw [ht]
    exact ⟨rfl, by simp [networkAttempted]⟩
  · intro hpat
    simp [handleSubmitB, he, hp, hm, hpat, tryBody]

/-- Witness for C2 at concrete inputs: "0400 111 222" aborts with the
mobile-format error, and "+61400111222" reaches the signUp call in
normalized form. -/
theorem c2_mobile_validation_witness :
    handleSubmitB
        { email := "a@b.c", password := "12345678",
          mobile := "0400 111 222", businessName := "" }
        { signUpResult := .throws, upsertResult := .throws } =
      [Ev.setErr "", Ev.setErr "Please enter a valid mobile number."] ∧
    Ev.callSignUp "a@b.c" "12345678" (some "+61400111222") ∈
      handleSubmitB
        { email := "a@b.c", password := "12345678",
          mobile := "+61400111222", businessName := "" }
        { signUpResult := .throws, upsertResult := .throws } := by
  constructor
  · exact ((c2_mobile_validation.2.1 _ _ (by decide) (by decide)
      (by decide)).1 (by decide)).1
  · exact (c2_mobile_validation.2.1
      { email := "a@b.c", password := "12345678",
        mobile := "+61400111222", businessName := "" }
      { signUpResult := .throws, upsertResult := .throws }
      (by decide) (by decide) (by decide)).2 (by decide)

lemma tryBody_sign_throws (te pw : String) (mo : Option String) (tb : String)
    (env : Env) (h : env.signUpResult = .throws) :
    tryBody te pw mo tb env =
      [Ev.callSignUp te pw mo,
       Ev.setErr "Something went wrong. Please try again."] := by
  simp [tryBody, h]

lemma tryBody_sign_error (te pw : String) (mo : Option String) (tb : String)
    (env : Env) (r : SignUpData) (m : String)
    (h1 : env.signUpResult = .ok r) (h2 : r.error = some m) :
    tryBody te pw mo tb env =
      [Ev.callSignUp te pw mo,
       Ev.setErr (jsOr m "Unable to create your account. Please try again.")] := by
  simp [tryBody, h1, h2]

lemma tryBody_missing_id (te pw : String) (mo : Option String) (tb : String)
    (env : Env) (r : SignUpData)
    (h1 : env.signUpResult = .ok r) (h2 : r.error = none)
    (h3 : r.user = none ∨ r.user = some "") :
    tryBody te pw mo tb env =
      [Ev.callSignUp te pw mo,
       Ev.setErr "Unable to create your account. Please try again."] := by
  rcases h3 with h3 | h3 <;> simp [tryBody, h1, h2, h3]

lemma tryBody_upsert_throws (te pw : String) (mo : Option String) (tb : String)
    (env : Env) (r : SignUpData) (uid : String)
    (h1 : env.signUpResult = .ok r) (h2 : r.error = none)
    (h3 : r.user = some uid) (h4 : uid ≠ "")
    (h5 : env.upsertResult = .throws) :
    tryBody te pw mo tb env =
      [Ev.callSignUp te pw mo,
       Ev.callUpsert ⟨uid, if tb = "" then none else some tb⟩,
       Ev.setErr "Something went wrong. Please try again."] := by
  simp [tryBody, h1, h2, h3, h4, h5]

lemma tryBody_upsert_error (te pw : String) (mo : Option String) (tb : String)
    (env : Env) (r : SignUpData) (uid : String) (u : UpsertData) (m : String)
    (h1 : env.signUpResult = .ok r) (h2 : r.error = none)
    (h3 : r.user = some uid) (h4 : uid ≠ "")
    (h5 : env.upsertResult = .ok u) (h6 : u.error = some m) :
    tryBody te pw mo tb env =
      [Ev.callSignUp te pw mo,
       Ev.callUpsert ⟨uid, if tb = "" then none else some tb⟩,
       Ev.setErr (jsOr m
         "Your account was created, but setup failed. Please try logging in.")] := by
  simp [tryBody, h1, h2, h3, h4, h5, h6]

lemma tryBody_success_nav (te pw : String) (mo : Option String) (tb : String)
    (env : Env) (r : SignUpData) (uid : String) (u : UpsertData)
    (h1 : env.signUpResult = .ok r) (h2 : r.error = none)
    (h3 : r.user = some uid) (h4 : uid ≠ "")
    (h5 : env.upsertResult = .ok u) (h6 : u.error = none) :
    tryBody te pw mo tb env =
      [Ev.callSignUp te pw mo,
       Ev.callUpsert ⟨uid, if tb = "" then none else some tb⟩,
       Ev.navigate
         (if r.session then "/account/setup" else "/signup/check-email")] := by
  by_cases hs : r.session <;> simp [tryBody, h1, h2, h3, h4, h5, h6, hs]

/-- Every execution of the try body has one of three shapes: signUp call
then an error message; signUp and upsert calls then an error message; or
signUp, upsert, and a navigation to one of the two fixed targets. -/
lemma tryBody_shape (te pw : String) (mo : Option String) (tb : String)
    (env : Env) :
    (∃ msg, tryBody te pw mo tb env =
      [Ev.callSignUp te pw mo, Ev.setErr msg]) ∨
    (∃ p msg, tryBody te pw mo tb env =
      [Ev.callSignUp te pw mo, Ev.callUpsert p, Ev.setErr msg]) ∨
    (∃ p path, (path = "/account/setup" ∨ path = "/signup/check-email") ∧
      tryBody te pw mo tb env =
        [Ev.callSignUp te pw mo, Ev.callUpsert p, Ev.navigate path]) := by
  rcases henv : env.signUpResult with r | _
  · rcases herr : r.error with _ | m
    · rcases huser : r.user with _ | uid
      · exact Or.inl ⟨_, tryBody_missing_id te pw mo tb env r henv herr
          (Or.inl huser)⟩
      · by_cases hu : uid = ""
        · exact Or.inl ⟨_, tryBody_missing_id te pw mo tb env r henv herr
            (Or.inr (hu ▸ huser))⟩
        · rcases hup : env.upsertResult with u | _
          · rcases huperr : u.error with _ | m2
            · refine Or.inr (Or.inr ⟨_, _, ?_,
                tryBody_success_nav te pw mo tb env r uid u henv herr huser hu
                  hup huperr⟩)
              by_cases hs : r.session <;> simp [hs]
            · exact Or.inr (Or.inl ⟨_, _,
                tryBody_upsert_error te pw mo tb env r uid u m2 henv herr huser
                  hu hup huperr⟩)
          · exact Or.inr (Or.inl ⟨_, _,
              tryBody_upsert_throws te pw mo tb env r uid henv herr huser hu
                hup⟩)
    · exact Or.inl ⟨_, tryBody_sign_error te pw mo tb env r m henv herr⟩
  · exact Or.inl ⟨_, tryBody_sign_throws te pw mo tb env henv⟩

/-- C3: in both variants, when the identity provider reports an error the
rendered error equals `error.message` when a (non-empty) message is
present and otherwise exactly "Unable to create your account. Please try
again.", and the upsert is not attempted. -/
theorem c3_provider_error (f : Fields) (fa : FieldsA) (env : Env)
    (r : SignUpData) (m : String)
    (h1 : env.signUpResult = .ok r) (h2 : r.error = some m) :
    (validB f = true →
      finalError (handleSubmitB f env) =
        (if m = "" then "Unable to create your account. Please try again."
         else m) ∧
      upsertAttempted (handleSubmitB f env) = false) ∧
    (validA fa = true →
      finalError (handleSubmitA fa env) =
        (if m = "" then "Unable to create your account. Please try again."
         else m) ∧
      upsertAttempted (handleSubmitA fa env) = false) := by
  constructor
  · intro hv
    rw [handleSubmitB_validation_pass f env hv,
      tryBody_sign_error _ _ _ _ env r m h1 h2]
    exact ⟨rfl, rfl⟩
  · intro hv
    rw [handleSubmitA_validation_pass fa env hv,
      tryBody_sign_error _ _ _ _ env r m h1 h2]
    exact ⟨rfl, rfl⟩

/-- Witness for C3: with provider error message "User already registered",
both variants render exactly that message and make no upsert call. -/
theorem c3_provider_error_witness :
    finalError (handleSubmitB
      { email := "a@b.c", password := "12345678",
        mobile := "+61400111222", businessName := "" }
      { signUpResult :=
          .ok { user := none, session := false,
                error := some "User already registered" },
        upsertResult := .throws }) = "User already registered" ∧
    upsertAttempted (handleSubmitA
      { email := "a@b.c", password := "12345678", businessName := "" }
      { signUpResult :=
          .ok { user := none, session := false,
                error := some "User already registered" },
        upsertResult := .throws }) = false := by
  have h := c3_provider_error
    { email := "a@b.c", password := "12345678",
      mobile := "+61400111222", businessName := "" }
    { email := "a@b.c", password := "12345678", businessName := "" }
    { signUpResult :=
        .ok { user := none, session := false,
              error := some "User already registered" },
      upsertResult := .throws }
    { user := none, session := false, error := some "User already registered" }
    "User already registered" rfl rfl
  exact ⟨by simpa using (h.1 (by decide)).1, (h.2 (by decide)).2⟩

lemma navTargets_handleSubmitB (f : Fields) (env : Env) :
    ∀ p ∈ navTargets (handleSubmitB f env),
      p = "/account/setup" ∨ p = "/signup/check-email" := by
  by_cases hv : validB f = true
  · rw [handleSubmitB_validation_pass f env hv]
    rcases tryBody_shape (jsTrim f.email) f.password
        (some (normalizeMobile (jsTrim f.mobile))) (jsTrim f.businessName) env
      with ⟨msg, ht⟩ | ⟨q, msg, ht⟩ | ⟨q, path, hpath, ht⟩ <;> rw [ht] <;>
      intro p hp
    · simp [navTargets] at hp
    · simp [navTargets] at hp
    · simp [navTargets] at hp
      exact hp ▸ hpath
  · have h' : validB f = false := by simpa using hv
    rcases handleSubmitB_validation_fail f env h' with
      ⟨_, he⟩ | ⟨_, _, he⟩ | ⟨_, _, _, he⟩ | ⟨_, _, _, _, he⟩ <;>
      rw [he] <;> intro p hp <;> simp [navTargets] at hp

lemma navTargets_handleSubmitA (f : FieldsA) (env : Env) :
    ∀ p ∈ navTargets (handleSubmitA f env),
      p = "/account/setup" ∨ p = "/signup/check-email" := by
  by_cases hv : validA f = true
  · rw [handleSubmitA_validation_pass f env hv]
    rcases tryBody_shape (jsTrim f.email) f.password none
        (jsTrim f.businessName) env
      with ⟨msg, ht⟩ | ⟨q, msg, ht⟩ | ⟨q, path, hpath, ht⟩ <;> rw [ht] <;>
      intro p hp
    · simp [navTargets] at hp
    · simp [navTargets] at hp
    · simp [navTargets] at hp
      exact hp ▸ hpath
  · have h' : validA f = false := by simpa using hv
    rcases handleSubmitA_validation_fail f env h' with ⟨_, he⟩ | ⟨_, _, he⟩ <;>
      rw [he] <;> intro p hp <;> simp [navTargets] at hp

/-- C4: in both variants, on a fully successful submission (validation
passed, identity creation returned a usable id, upsert succeeded) the
navigation target is `/account/setup` when a session was returned and
`/signup/check-email` otherwise; and in every execution these are the only
navigation targets ever used. -/
theorem c4_navigation (f : Fields) (fa : FieldsA) (env : Env) :
    (∀ (r : SignUpData) (uid : String) (u : UpsertData),
      env.signUpResult = .ok r → r.error = none → r.user = some uid →
      uid ≠ "" → env.upsertResult = .ok u → u.error = none →
      (validB f = true → navTargets (handleSubmitB f env) =
        [if r.session then "/account/setup" else "/signup/check-email"]) ∧
      (validA fa = true → navTargets (handleSubmitA fa env) =
        [if r.session then "/account/setup" else "/signup/check-email"])) ∧
    (∀ p ∈ navTargets (handleSubmitB f env),
      p = "/account/setup" ∨ p = "/signup/check-email") ∧
    (∀ p ∈ navTargets (handleSubmitA fa env),
      p = "/account/setup" ∨ p = "/signup/check-email") := by
  refine ⟨?_, navTargets_handleSubmitB f env, navTargets_handleSubmitA fa env⟩
  intro r uid u h1 h2 h3 h4 h5 h6
  constructor
  · intro hv
    rw [handleSubmitB_validation_pass f env hv,
      tryBody_success_nav _ _ _ _ env r uid u h1 h2 h3 h4 h5 h6]
    rfl
  · intro hv
    rw [handleSubmitA_validation_pass fa env hv,
      tryBody_success_nav _ _ _ _ env r uid u h1 h2 h3 h4 h5 h6]
    rfl

/-- Witness for C4: a successful submission with a session navigates to
`/account/setup` (variant B) and one without a session navigates to
`/signup/check-email` (variant A). -/
theorem c4_navigation_witness :
    navTargets (handleSubmitB
      { email := "a@b.c", password := "12345678",
        mobile := "+61400111222", businessName := "" }
      { signUpResult :=
          .ok { user := some "uid1", session := true, error := none },
        upsertResult := .ok { error := none } }) = ["/account/setup"] ∧
    navTargets (handleSubmitA
      { email := "a@b.c", password := "12345678", businessName := "" }
      { signUpResult :=
          .ok { user := some "uid1", session := false, error := none },
        upsertResult := .ok { error := none } }) = ["/signup/check-email"] := by
  constructor
  · have h := (c4_navigation
      { email := "a@b.c", password := "12345678",
        mobile := "+61400111222", businessName := "" }
      { email := "a@b.c", password := "12345678", businessName := "" }
      { signUpResult :=
          .ok { user := some "uid1", session := true, error := none },
        upsertResult := .ok { error := none } }).1
      { user := some "uid1", session := true, error := none } "uid1"
      { error := none } rfl rfl rfl (by decide) rfl rfl
    simpa using h.1 (by decide)
  · have h := (c4_navigation
      { email := "a@b.c", password := "12345678",
        mobile := "+61400111222", businessName := "" }
      { email := "a@b.c", password := "12345678", businessName := "" }
      { signUpResult :=
          .ok { user := some "uid1", session := false, error := none },
        upsertResult := .ok { error := none } }).1
      { user := some "uid1", session := false, error := none } "uid1"
      { error := none } rfl rfl rfl (by decide) rfl rfl
    simpa using h.2 (by decide)

lemma isThrows_eq {α : Type} (c : CallResult α) :
    isThrows c = true ↔ c = .throws := by
  cases c <;> simp [isThrows]

lemma signUpUsable_spec (env : Env) (h : signUpUsable env = true) :
    ∃ r uid, env.signUpResult = .ok r ∧ r.error = none ∧
      r.user = some uid ∧ uid ≠ "" := by
  unfold signUpUsable at h
  rcases henv : env.signUpResult with r | _
  · rcases r with ⟨u, s, e⟩
    rcases e with _ | m
    · rcases u with _ | uid
      · rw [henv] at h
        simp at h
      · rw [henv] at h
        simp at h
        exact ⟨⟨some uid, s, none⟩, uid, rfl, rfl, rfl, by simpa using h⟩
    · rw [henv] at h
      simp at h
  · rw [henv] at h
    simp at h

/-- C5: in both variants, whenever a remote call of the asynchronous
sequence throws, the exception is caught and the rendered error is exactly
"Something went wrong. Please try again."; the handler still runs its
finalization step (the trace ends by clearing the submitting flag), so no
error propagates past the submit handler. -/
theorem c5_exception_caught (f : Fields) (fa : FieldsA) (env : Env) :
    (exceptionOccurred (handleSubmitB f env) env = true →
      finalError (handleSubmitB f env) =
        "Something went wrong. Please try again." ∧
      (handleSubmitB f env).getLast? = some (Ev.setSubmitting false)) ∧
    (exceptionOccurred (handleSubmitA fa env) env = true →
      finalError (handleSubmitA fa env) =
        "Something went wrong. Please try again." ∧
      (handleSubmitA fa env).getLast? = some (Ev.setSubmitting false)) := by
  constructor
  · intro hex
    simp only [exceptionOccurred, Bool.or_eq_true, Bool.and_eq_true,
      signUpAttempted_handleSubmitB, upsertAttempted_handleSubmitB] at hex
    rcases hex with ⟨hv, hthr⟩ | ⟨⟨hv, hu⟩, hthr⟩
    · rw [handleSubmitB_validation_pass f env hv,
        tryBody_sign_throws _ _ _ _ env ((isThrows_eq _).mp hthr)]
      exact ⟨rfl, rfl⟩
    · obtain ⟨r, uid, h1, h2, h3, h4⟩ := signUpUsable_spec env hu
      rw [handleSubmitB_validation_pass f env hv,
        tryBody_upsert_throws _ _ _ _ env r uid h1 h2 h3 h4
          ((isThrows_eq _).mp hthr)]
      exact ⟨rfl, rfl⟩
  · intro hex
    simp only [exceptionOccurred, Bool.or_eq_true, Bool.and_eq_true,
      signUpAttempted_handleSubmitA, upsertAttempted_handleSubmitA] at hex
    rcases hex with ⟨hv, hthr⟩ | ⟨⟨hv, hu⟩, hthr⟩
    · rw [handleSubmitA_validation_pass fa env hv,
        tryBody_sign_throws _ _ _ _ env ((isThrows_eq _).mp hthr)]
      exact ⟨rfl, rfl⟩
    · obtain ⟨r, uid, h1, h2, h3, h4⟩ := signUpUsable_spec env hu
      rw [handleSubmitA_validation_pass fa env hv,
        tryBody_upsert_throws _ _ _ _ env r uid h1 h2 h3 h4
          ((isThrows_eq _).mp hthr)]
      exact ⟨rfl, rfl⟩

/-- Witness for C5: a throwing signUp call in variant B and a throwing
upsert call in variant A both render the generic catch message. -/
theorem c5_exception_caught_witness :
    finalError (handleSubmitB
      { email := "a@b.c", password := "12345678",
        mobile := "+61400111222", businessName := "" }
      { signUpResult := .throws, upsertResult := .throws }) =
      "Something went wrong. Please try again." ∧
    finalError (handleSubmitA
      { email := "a@b.c", password := "12345678", businessName := "" }
      { signUpResult :=
          .ok { user := some "uid1", session := false, error := none },
        upsertResult := .throws }) =
      "Something went wrong. Please try again." := by
  constructor
  · exact ((c5_exception_caught
      { email := "a@b.c", password := "12345678",
        mobile := "+61400111222", businessName := "" }
      { email := "a@b.c", password := "12345678", businessName := "" }
      { signUpResult := .throws, upsertResult := .throws }).1
      (by decide)).1
  · exact ((c5_exception_caught
      { email := "a@b.c", password := "12345678",
        mobile := "+61400111222", businessName := "" }
      { email := "a@b.c", password := "12345678", businessName := "" }
      { signUpResult :=
          .ok { user := some "uid1", session := false, error := none },
        upsertResult := .throws }).2
      (by decide)).1

/-- C6: in both variants and on every path, the `isSubmitting` events are
well-bracketed: the flag is never set on local-validation-failure paths,
and otherwise it is set to true once, every network call and navigation
happens while it is true, and the last action of the handler is the
finalization step that clears it to false. -/
theorem c6_submitting_flag (f : Fields) (fa : FieldsA) (env : Env) :
    (flagDiscipline (handleSubmitB f env) false = true ∧
      (submittingEvents (handleSubmitB f env) = [] ∨
        (submittingEvents (handleSubmitB f env) = [true, false] ∧
          (handleSubmitB f env).getLast? = some (Ev.setSubmitting false)))) ∧
    (flagDiscipline (handleSubmitA fa env) false = true ∧
      (submittingEvents (handleSubmitA fa env) = [] ∨
        (submittingEvents (handleSubmitA fa env) = [true, false] ∧
          (handleSubmitA fa env).getLast? = some (Ev.setSubmitting false)))) := by
  constructor
  · by_cases hv : validB f = true
    · rw [handleSubmitB_validation_pass f env hv]
      rcases tryBody_shape (jsTrim f.email) f.password
          (some (normalizeMobile (jsTrim f.mobile))) (jsTrim f.businessName) env
        with ⟨msg, ht⟩ | ⟨q, msg, ht⟩ | ⟨q, path, hpath, ht⟩ <;> rw [ht] <;>
        exact ⟨rfl, Or.inr ⟨rfl, rfl⟩⟩
    · have h' : validB f = false := by simpa using hv
      rcases handleSubmitB_validation_fail f env h' with
        ⟨_, he⟩ | ⟨_, _, he⟩ | ⟨_, _, _, he⟩ | ⟨_, _, _, _, he⟩ <;> rw [he] <;>
        exact ⟨rfl, Or.inl rfl⟩
  · by_cases hv : validA fa = true
    · rw [handleSubmitA_validation_pass fa env hv]
      rcases tryBody_shape (jsTrim fa.email) fa.password none
          (jsTrim fa.businessName) env
        with ⟨msg, ht⟩ | ⟨q, msg, ht⟩ | ⟨q, path, hpath, ht⟩ <;> rw [ht] <;>
        exact ⟨rfl, Or.inr ⟨rfl, rfl⟩⟩
    · have h' : validA fa = false := by simpa using hv
      rcases handleSubmitA_validation_fail fa env h' with ⟨_, he⟩ | ⟨_, _, he⟩ <;>
        rw [he] <;> exact ⟨rfl, Or.inl rfl⟩

/-- C7: in both variants, local validation runs in fixed order and stops
at the first failure: an empty trimmed email aborts with exactly
"Email is required." and no network call, and a non-empty trimmed email
with a password shorter than 8 aborts with exactly
"Password must be at least 8 characters." and no network call. -/
theorem c7_validation_order (f : Fields) (fa : FieldsA) (env : Env) :
    (jsTrim f.email = "" →
      handleSubmitB f env = [Ev.setErr "", Ev.setErr "Email is required."] ∧
      networkAttempted (handleSubmitB f env) = false) ∧
    (jsTrim f.email ≠ "" → f.password.length < 8 →
      handleSubmitB f env =
        [Ev.setErr "", Ev.setErr "Password must be at least 8 characters."] ∧
      networkAttempted (handleSubmitB f env) = false) ∧
    (jsTrim fa.email = "" →
      handleSubmitA fa env = [Ev.setErr "", Ev.setErr "Email is required."] ∧
      networkAttempted (handleSubmitA fa env) = false) ∧
    (jsTrim fa.email ≠ "" → fa.password.length < 8 →
      handleSubmitA fa env =
        [Ev.setErr "", Ev.setErr "Password must be at least 8 characters."] ∧
      networkAttempted (handleSubmitA fa env) = false) := by
  refine ⟨fun he => ?_, fun he hp => ?_, fun he => ?_, fun he hp => ?_⟩
  · have ht : handleSubmitB f env =
        [Ev.setErr "", Ev.setErr "Email is required."] := by
      simp [handleSubmitB, he]
    exact ⟨ht, by rw [ht]; rfl⟩
  · have ht : handleSubmitB f env =
        [Ev.setErr "", Ev.setErr "Password must be at least 8 characters."] := by
      simp [handleSubmitB, he, hp]
    exact ⟨ht, by rw [ht]; rfl⟩
  · have ht : handleSubmitA fa env =
        [Ev.setErr "", Ev.setErr "Email is required."] := by
      simp [handleSubmitA, he]
    exact ⟨ht, by rw [ht]; rfl⟩
  · have ht : handleSubmitA fa env =
        [Ev.setErr "", Ev.setErr "Password must be at least 8 characters."] := by
      simp [handleSubmitA, he, hp]
    exact ⟨ht, by rw [ht]; rfl⟩

/-- Witness for C7: a whitespace-only email aborts with the email error in
variant B, and a short password (with valid email) aborts with the length
error in variant A. -/
theorem c7_validation_order_witness :
    handleSubmitB
        { email := "   ", password := "12345678",
          mobile := "+61400111222", businessName := "" }
        { signUpResult := .throws, upsertResult := .throws } =
      [Ev.setErr "", Ev.setErr "Email is required."] ∧
    handleSubmitA
        { email := "a@b.c", password := "1234567", businessName := "" }
        { signUpResult := .throws, upsertResult := .throws } =
      [Ev.setErr "", Ev.setErr "Password must be at least 8 characters."] := by
  constructor
  · exact ((c7_validation_order
      { email := "   ", password := "12345678",
        mobile := "+61400111222", businessName := "" }
      { email := "a@b.c", password := "1234567", businessName := "" }
      { signUpResult := .throws, upsertResult := .throws }).1
      (by decide)).1
  · exact ((c7_validation_order
      { email := "   ", password := "12345678",
        mobile := "+61400111222", businessName := "" }
      { email := "a@b.c", password := "1234567", businessName := "" }
      { signUpResult := .throws, upsertResult := .throws }).2.2.2
      (by decide) (by decide)).1

lemma upsertPayloads_tryBody (te pw : String) (mo : Option String)
    (tb : String) (env : Env) (p : Payload)
    (hp : p ∈ upsertPayloads (tryBody te pw mo tb env)) :
    ∃ r uid, env.signUpResult = .ok r ∧ r.error = none ∧
      r.user = some uid ∧ uid ≠ "" ∧
      p = ⟨uid, if tb = "" then none else some tb⟩ := by
  rcases henv : env.signUpResult with r | _
  · rcases herr : r.error with _ | m
    · rcases huser : r.user with _ | uid
      · rw [tryBody_missing_id te pw mo tb env r henv herr (Or.inl huser)] at hp
        simp [upsertPayloads] at hp
      · by_cases hu : uid = ""
        · rw [tryBody_missing_id te pw mo tb env r henv herr
            (Or.inr (hu ▸ huser))] at hp
          simp [upsertPayloads] at hp
        · rcases hup : env.upsertResult with u | _
          · rcases huperr : u.error with _ | m2
            · rw [tryBody_success_nav te pw mo tb env r uid u henv herr huser
                hu hup huperr] at hp
              simp [upsertPayloads] at hp
              exact ⟨r, uid, rfl, herr, huser, hu, hp⟩
            · rw [tryBody_upsert_error te pw mo tb env r uid u m2 henv herr
                huser hu hup huperr] at hp
              simp [upsertPayloads] at hp
              exact ⟨r, uid, rfl, herr, huser, hu, hp⟩
          · rw [tryBody_upsert_throws te pw mo tb env r uid henv herr huser hu
              hup] at hp
            simp [upsertPayloads] at hp
            exact ⟨r, uid, rfl, herr, huser, hu, hp⟩
    · rw [tryBody_sign_error te pw mo tb env r m henv herr] at hp
      simp [upsertPayloads] at hp
  · rw [tryBody_sign_throws te pw mo tb env henv] at hp
    simp [upsertPayloads] at hp

lemma upsertPayloads_handleSubmitB (f : Fields) (env : Env) (p : Payload)
    (hp : p ∈ upsertPayloads (handleSubmitB f env)) :
    ∃ r uid, env.signUpResult = .ok r ∧ r.error = none ∧
      r.user = some uid ∧ uid ≠ "" ∧
      p = ⟨uid, if jsTrim f.businessName = "" then none
            else some (jsTrim f.businessName)⟩ := by
  by_cases hv : validB f = true
  · rw [handleSubmitB_validation_pass f env hv] at hp
    refine upsertPayloads_tryBody (jsTrim f.email) f.password
      (some (normalizeMobile (jsTrim f.mobile))) (jsTrim f.businessName) env p ?_
    simpa [upsertPayloads] using hp
  · have h' : validB f = false := by simpa using hv
    rcases handleSubmitB_validation_fail f env h' with
      ⟨_, he⟩ | ⟨_, _, he⟩ | ⟨_, _, _, he⟩ | ⟨_, _, _, _, he⟩ <;>
      rw [he] at hp <;> simp [upsertPayloads] at hp

lemma upsertPayloads_handleSubmitA (f : FieldsA) (env : Env) (p : Payload)
    (hp : p ∈ upsertPayloads (handleSubmitA f env)) :
    ∃ r uid, env.signUpResult = .ok r ∧ r.error = none ∧
      r.user = some uid ∧ uid ≠ "" ∧
      p = ⟨uid, if jsTrim f.businessName = "" then none
            else some (jsTrim f.businessName)⟩ := by
  by_cases hv : validA f = true
  · rw [handleSubmitA_validation_pass f env hv] at hp
    refine upsertPayloads_tryBody (jsTrim f.email) f.password none
      (jsTrim f.businessName) env p ?_
    simpa [upsertPayloads] using hp
  · have h' : validA f = false := by simpa using hv
    rcases handleSubmitA_validation_fail f env h' with ⟨_, he⟩ | ⟨_, _, he⟩ <;>
      rw [he] at hp <;> simp [upsertPayloads] at hp

/-- C8: in both variants, every record sent to the upsert carries the
identity id returned by the provider, and its `business_name` key is
present (with the trimmed business-name field) exactly when that trimmed
field is non-empty — never an empty string in its place. -/
theorem c8_upsert_payload (f : Fields) (fa : FieldsA) (env : Env)
    (p q : Payload) :
    (p ∈ upsertPayloads (handleSubmitB f env) →
      (∃ r, env.signUpResult = .ok r ∧ r.user = some p.id ∧ p.id ≠ "") ∧
      p.business_name = (if jsTrim f.businessName = "" then none
        else some (jsTrim f.businessName))) ∧
    (q ∈ upsertPayloads (handleSubmitA fa env) →
      (∃ r, env.signUpResult = .ok r ∧ r.user = some q.id ∧ q.id ≠ "") ∧
      q.business_name = (if jsTrim fa.businessName = "" then none
        else some (jsTrim fa.businessName))) := by
  constructor
  · intro hp
    obtain ⟨r, uid, h1, h2, h3, h4, h5⟩ := upsertPayloads_handleSubmitB f env p hp
    subst h5
    exact ⟨⟨r, h1, h3, h4⟩, rfl⟩
  · intro hq
    obtain ⟨r, uid, h1, h2, h3, h4, h5⟩ := upsertPayloads_handleSubmitA fa env q hq
    subst h5
    exact ⟨⟨r, h1, h3, h4⟩, rfl⟩

/-- Witness for C8: with business name " Acme " (variant B) the outbound
record carries `business_name = "Acme"`, and with an empty business name
(variant A) the key is absent. -/
theorem c8_upsert_payload_witness :
    ((⟨"uid1", some "Acme"⟩ : Payload).business_name =
      (if jsTrim " Acme " = "" then none else some (jsTrim " Acme "))) ∧
    ((⟨"uid1", none⟩ : Payload).business_name =
      (if jsTrim "" = "" then none else some (jsTrim ""))) := by
  constructor
  · exact ((c8_upsert_payload
      { email := "a@b.c", password := "12345678",
        mobile := "+61400111222", businessName := " Acme " }
      { email := "a@b.c", password := "12345678", businessName := "" }
      { signUpResult :=
          .ok { user := some "uid1", session := false, error := none },
        upsertResult := .ok { error := none } }
      ⟨"uid1", some "Acme"⟩ ⟨"uid1", none⟩).1 (by decide)).2
  · exact ((c8_upsert_payload
      { email := "a@b.c", password := "12345678",
        mobile := "+61400111222", businessName := " Acme " }
      { email := "a@b.c", password := "12345678", businessName := "" }
      { signUpResult :=
          .ok { user := some "uid1", session := false, error := none },
        upsertResult := .ok { error := none } }
      ⟨"uid1", some "Acme"⟩ ⟨"uid1", none⟩).2 (by decide)).2

/-- C9: in both variants, at most one navigation call is made per
execution, and a navigation happens only when no error message was set
during the attempt (the only `setError` is the initial reset to the empty
string), so a single attempt never both displays an error and navigates. -/
theorem c9_single_nav_no_error (f : Fields) (fa : FieldsA) (env : Env) :
    (navTargets (handleSubmitB f env)).length ≤ 1 ∧
    (navTargets (handleSubmitB f env) ≠ [] →
      errMsgs (handleSubmitB f env) = [""]) ∧
    (navTargets (handleSubmitA fa env)).length ≤ 1 ∧
    (navTargets (handleSubmitA fa env) ≠ [] →
      errMsgs (handleSubmitA fa env) = [""]) := by
  refine ⟨?_, ?_, ?_, ?_⟩
  case _ | _ =>
    by_cases hv : validB f = true
    · rw [handleSubmitB_validation_pass f env hv]
      rcases tryBody_shape (jsTrim f.email) f.password
          (some (normalizeMobile (jsTrim f.mobile))) (jsTrim f.businessName) env
        with ⟨msg, ht⟩ | ⟨q, msg, ht⟩ | ⟨q, path, hpath, ht⟩ <;> rw [ht] <;>
        first
          | (simp [navTargets]; done)
          | (intro h; first | rfl | simp [navTargets] at h)
    · have h' : validB f = false := by simpa using hv
      rcases handleSubmitB_validation_fail f env h' with
        ⟨_, he⟩ | ⟨_, _, he⟩ | ⟨_, _, _, he⟩ | ⟨_, _, _, _, he⟩ <;> rw [he] <;>
        first
          | (simp [navTargets]; done)
          | (intro h; simp [navTargets] at h)
  case _ | _ =>
    by_cases hv : validA fa = true
    · rw [handleSubmitA_validation_pass fa env hv]
      rcases tryBody_shape (jsTrim fa.email) fa.password none
          (jsTrim fa.businessName) env
        with ⟨msg, ht⟩ | ⟨q, msg, ht⟩ | ⟨q, path, hpath, ht⟩ <;> rw [ht] <;>
        first
          | (simp [navTargets]; done)
          | (intro h; first | rfl | simp [navTargets] at h)
    · have h' : validA fa = false := by simpa using hv
      rcases handleSubmitA_validation_fail fa env h' with ⟨_, he⟩ | ⟨_, _, he⟩ <;>
        rw [he] <;>
        first
          | (simp [navTargets]; done)
          | (intro h; simp [navTargets] at h)

/-- Witness for C9: in a fully successful variant-B execution a navigation
happened, and the only `setError` of the attempt was the initial reset. -/
theorem c9_single_nav_no_error_witness :
    errMsgs (handleSubmitB
      { email := "a@b.c", password := "12345678",
        mobile := "+61400111222", businessName := "" }
      { signUpResult :=
          .ok { user := some "uid1", session := true, error := none },
        upsertResult := .ok { error := none } }) = [""] := by
  exact (c9_single_nav_no_error
    { email := "a@b.c", password := "12345678",
      mobile := "+61400111222", businessName := "" }
    { email := "a@b.c", password := "12345678", businessName := "" }
    { signUpResult :=
        .ok { user := some "uid1", session := true, error := none },
      upsertResult := .ok { error := none } }).2.1 (by decide)

/-- C10: in both variants, an error object whose `message` is the empty
string is treated like an absent message: the identity-creation branch
falls back to "Unable to create your account. Please try again." and the
upsert branch falls back to "Your account was created, but setup failed.
Please try logging in.". -/
theorem c10_empty_message_fallback (f : Fields) (fa : FieldsA) (env : Env)
    (r : SignUpData) (u : UpsertData) :
    (env.signUpResult = .ok r → r.error = some "" →
      (validB f = true → finalError (handleSubmitB f env) =
        "Unable to create your account. Please try again.") ∧
      (validA fa = true → finalError (handleSubmitA fa env) =
        "Unable to create your account. Please try again.")) ∧
    (env.signUpResult = .ok r → r.error = none →
      env.upsertResult = .ok u → u.error = some "" →
      (upsertAttempted (handleSubmitB f env) = true →
        finalError (handleSubmitB f env) =
          "Your account was created, but setup failed. Please try logging in.") ∧
      (upsertAttempted (handleSubmitA fa env) = true →
        finalError (handleSubmitA fa env) =
          "Your account was created, but setup failed. Please try logging in.")) := by
  constructor
  · intro h1 h2
    constructor
    · intro hv
      rw [handleSubmitB_validation_pass f env hv,
        tryBody_sign_error _ _ _ _ env r "" h1 h2]
      simp [finalError, errMsgs, jsOr]
    · intro hv
      rw [handleSubmitA_validation_pass fa env hv,
        tryBody_sign_error _ _ _ _ env r "" h1 h2]
      simp [finalError, errMsgs, jsOr]
  · intro h1 h2 h3 h4
    constructor
    · intro hup
      rw [upsertAttempted_handleSubmitB, Bool.and_eq_true] at hup
      obtain ⟨hv, hu⟩ := hup
      obtain ⟨r', uid, h1', h2', h3', h4'⟩ := signUpUsable_spec env hu
      rw [h1] at h1'
      injection h1' with hrr
      subst hrr
      rw [handleSubmitB_validation_pass f env hv,
        tryBody_upsert_error _ _ _ _ env r uid u "" h1 h2 h3' h4' h3 h4]
      simp [finalError, errMsgs, jsOr]
    · intro hup
      rw [upsertAttempted_handleSubmitA, Bool.and_eq_true] at hup
      obtain ⟨hv, hu⟩ := hup
      obtain ⟨r', uid, h1', h2', h3', h4'⟩ := signUpUsable_spec env hu
      rw [h1] at h1'
      injection h1' with hrr
      subst hrr
      rw [handleSubmitA_validation_pass fa env hv,
        tryBody_upsert_error _ _ _ _ env r uid u "" h1 h2 h3' h4' h3 h4]
      simp [finalError, errMsgs, jsOr]

/-- Witness for C10: a provider error with message `""` renders the
account-creation fallback (variant B), and an upsert error with message
`""` renders the partial-failure fallback (variant A). -/
theorem c10_empty_message_fallback_witness :
    finalError (handleSubmitB
      { email := "a@b.c", password := "12345678",
        mobile := "+61400111222", businessName := "" }
      { signUpResult :=
          .ok { user := none, session := false, error := some "" },
        upsertResult := .throws }) =
      "Unable to create your account. Please try again." ∧
    finalError (handleSubmitA
      { email := "a@b.c", password := "12345678", businessName := "" }
      { signUpResult :=
          .ok { user := some "uid1", session := false, error := none },
        upsertResult := .ok { error := some "" } }) =
      "Your account was created, but setup failed. Please try logging in." := by
  constructor
  · exact ((c10_empty_message_fallback
      { email := "a@b.c", password := "12345678",
        mobile := "+61400111222", businessName := "" }
      { email := "a@b.c", password := "12345678", businessName := "" }
      { signUpResult :=
          .ok { user := none, session := false, error := some "" },
        upsertResult := .throws }
      { user := none, session := false, error := some "" }
      { error := none }).1 rfl rfl).1 (by decide)
  · exact ((c10_empty_message_fallback
      { email := "a@b.c", password := "12345678",
        mobile := "+61400111222", businessName := "" }
      { email := "a@b.c", password := "12345678", businessName := "" }
      { signUpResult :=
          .ok { user := some "uid1", session := false, error := none },
        upsertResult := .ok { error := some "" } }
      { user := some "uid1", session := false, error := none }
      { error := some "" }).2 rfl rfl rfl rfl).2 (by decide)

end BillyBot
